import Mathlib

/-!
Shallow embedding of the payment reconciliation core of `backend-1`
(`src/backend-1/src/routes/index.js` and the Mongoose models), together
with proofs about the embedded operations.

Conventions of the embedding:
* times are natural numbers of milliseconds (`Date.now()` style);
* nullable JavaScript values are `Option`; JavaScript truthiness of a
  string is "present and non-empty";
* the Mongo collections are lists of records; `findOne` is `List.find?`
  (first match); saving a mutated document replaces the record with the
  same `razorpayOrderId` (the schema declares that field `unique`);
* external calls (Razorpay, QR rendering, HMAC) are parameters of the
  handlers: a `Gateway` record of response functions, a `qrGen` function,
  an `hmac` function.  Fallible externals return `Except Unit _`, a
  thrown error being `.error ()`.
-/

/-- JavaScript truthiness of an optional string: `undefined`/`null` and
the empty string are falsy. -/
def jsTruthy : Option String → Bool
  | none => false
  | some s => !(s == "")

/-- `a || b` for an optional string with a string default. -/
def jsOrStr (a : Option String) (b : String) : String :=
  match a with
  | none => b
  | some s => if s == "" then b else s

/-- `.toUpperCase()`: character-wise ASCII uppercasing. -/
def jsToUpper (s : String) : String :=
  String.mk (s.data.map Char.toUpper)

/-- Payment status enumeration of `payment.model.js` (`enum: ['pending',
'completed', 'failed']`). -/
inductive PaymentStatus
  | pending
  | completed
  | failed
deriving DecidableEq, Repr

/-- String rendering used in JSON responses. -/
def PaymentStatus.toStr : PaymentStatus → String
  | .pending => "pending"
  | .completed => "completed"
  | .failed => "failed"

/-- A document of the `Payment` collection (`payment.model.js`). -/
structure PaymentRecord where
  numberPlate : String
  razorpayOrderId : String
  razorpayPaymentId : Option String
  amount : Nat
  status : PaymentStatus
  qrCodeUrl : Option String
  paymentUrl : Option String
  razorpayPaymentLinkId : Option String
  createdAt : Nat
  paidAt : Option Nat
deriving DecidableEq, Repr

/-- A document of the `GuestNumber` collection (`guestNumber.model.js`). -/
structure GuestEntry where
  numberPlate : String
  razorpayOrderId : String
  razorpayPaymentId : Option String
  amount : Nat
  transactionId : Option String
  paidAt : Nat
  timestamp : Nat
deriving DecidableEq, Repr

/-- The gate-trigger module state: the four module-level variables
`gateTriggerFlag`, `gateTriggerTimestamp`, `gateTriggerPlate`,
`gateTriggerExpiry` of `routes/index.js`. -/
structure GateState where
  flag : Bool
  timestamp : Option Nat
  plate : Option String
  expiry : Option Nat
deriving DecidableEq, Repr

/-- The initial (and cleared) gate state: `flag = false`, the other three
variables `null`. -/
def initialGate : GateState :=
  { flag := false, timestamp := none, plate := none, expiry := none }

/-- Response of `POST /trigger-gate`. -/
structure TriggerResp where
  success : Bool
  plate : String
  expiresAt : Nat
deriving DecidableEq, Repr

/-- `POST /trigger-gate` (routes/index.js:798-822): sets the flag, stamps
the timestamp and plate, and sets `expiry = now + 10000` ms. A missing or
empty plate becomes `'UNKNOWN'` (`numberPlate || 'UNKNOWN'`). -/
def setTrigger (now : Nat) (numberPlate : Option String) (_g : GateState) :
    GateState × TriggerResp :=
  let p := jsOrStr numberPlate "UNKNOWN"
  ({ flag := true, timestamp := some now, plate := some p,
     expiry := some (now + 10000) },
   { success := true, plate := p, expiresAt := now + 10000 })

/-- Response of `GET /trigger-gate`. -/
structure PollResp where
  triggered : Bool
  plate : Option String
  timestamp : Option Nat
  expiresAt : Option Nat
deriving DecidableEq, Repr

/-- `GET /trigger-gate` (routes/index.js:825-868): first clears the slot
when the flag is set, an expiry is present and `now > expiry`; then, if
the flag is (still) set, answers `triggered = true` with the stored plate
and clears the slot (one-time trigger); otherwise answers
`triggered = false`. -/
def pollAndClear (now : Nat) (g : GateState) : GateState × PollResp :=
  let g1 :=
    if g.flag && (match g.expiry with
                  | some e => decide (now > e)
                  | none => false) then
      initialGate
    else g
  if g1.flag then
    (initialGate,
     { triggered := true, plate := g1.plate, timestamp := g1.timestamp,
       expiresAt := g1.expiry })
  else
    (g1, { triggered := false, plate := none, timestamp := none,
           expiresAt := none })

/-- The whole system state the handlers touch: the `Payment` collection,
the `GuestNumber` collection and the gate-trigger variables. -/
structure SysState where
  db : List PaymentRecord
  ledger : List GuestEntry
  gate : GateState
deriving DecidableEq, Repr

/-- `PaymentModel.findOne({ razorpayOrderId: orderId })`: first record of
the collection with that order id. -/
def findByOrderId (db : List PaymentRecord) (orderId : String) :
    Option PaymentRecord :=
  db.find? (fun r => r.razorpayOrderId == orderId)

/-- Persisting a mutated document (`await payment.save()`): the record
with the saved document's `razorpayOrderId` is replaced.  The schema
declares `razorpayOrderId` unique, so this coincides with saving by
document identity. -/
def saveDoc (db : List PaymentRecord) (p : PaymentRecord) :
    List PaymentRecord :=
  db.map (fun r => if r.razorpayOrderId == p.razorpayOrderId then p else r)

/-- The mutation block shared by every completion site
(e.g. routes/index.js:392-396): `status = 'completed'`,
`razorpayPaymentId = <id>` when an id is at hand (otherwise the field is
left alone, as in the order-status path at routes/index.js:416-420),
`paidAt = new Date()`. -/
def markCompleted (p : PaymentRecord) (pid : Option String) (now : Nat) :
    PaymentRecord :=
  { p with
    status := .completed
    razorpayPaymentId := match pid with
      | some i => some i
      | none => p.razorpayPaymentId
    paidAt := some now }

/-- The `GuestNumber` row built from a payment document
(routes/index.js:333-341): `transactionId` is
`payment.razorpayPaymentId || payment.razorpayOrderId` and `paidAt` is
`payment.paidAt || new Date()`. -/
def guestEntryOf (payment : PaymentRecord) (now : Nat) : GuestEntry :=
  { numberPlate := jsToUpper payment.numberPlate
    razorpayOrderId := payment.razorpayOrderId
    razorpayPaymentId := payment.razorpayPaymentId
    amount := payment.amount
    transactionId :=
      some (jsOrStr payment.razorpayPaymentId payment.razorpayOrderId)
    paidAt := payment.paidAt.getD now
    timestamp := now }

/-- The guest-row existence check of routes/index.js:327-330: a row with
the same uppercased plate and order id. -/
def guestExists (ledger : List GuestEntry) (payment : PaymentRecord) : Bool :=
  (ledger.find? (fun g =>
      g.numberPlate == jsToUpper payment.numberPlate &&
      g.razorpayOrderId == payment.razorpayOrderId)).isSome

/-- `saveGuestNumberPlateAfterPayment` (routes/index.js:323-353): looks
for an existing `GuestNumber` row with the same (uppercased plate,
order id); if absent, inserts a row built from the payment document and
returns `true`; if present, inserts nothing and returns `true` as well
("Return true even if exists, as it's already saved").  The `catch`
branch (storage failure, returning `false`) is outside this embedding:
storage here never throws. -/
def saveGuestNumberPlateAfterPayment (ledger : List GuestEntry)
    (payment : PaymentRecord) (now : Nat) : List GuestEntry × Bool :=
  if guestExists ledger payment then (ledger, true)
  else (ledger ++ [guestEntryOf payment now], true)

/-- The winning completion path's state change: save the mutated payment
document, then `saveGuestNumberPlateAfterPayment`.  The gate variables
are not touched by any completion site. -/
def applyCompletion (st : SysState) (p : PaymentRecord) (now : Nat) :
    SysState :=
  { st with
    db := saveDoc st.db p
    ledger := (saveGuestNumberPlateAfterPayment st.ledger p now).1 }

/-- `razorpay.orders.fetch` response view: only `.status` is read. -/
structure OrderView where
  status : String
deriving DecidableEq, Repr

/-- An element of `razorpay.orders.fetchPayments(...).items` or of
`paymentLink.payments`: only `.id` and `.status` are read. -/
structure PayView where
  id : String
  status : String
deriving DecidableEq, Repr

/-- `razorpay.paymentLink.fetch` response view: `.status` and
`.payments`. -/
structure LinkView where
  status : String
  payments : List PayView
deriving DecidableEq, Repr

/-- An element of `razorpay.payments.all({count:100}).items`: the
heuristic reads `.id`, `.amount` (paise), `.status` and `.created_at`
(Unix seconds). -/
structure FullPay where
  id : String
  amount : Nat
  status : String
  created_at : Nat
deriving DecidableEq, Repr

/-- The Razorpay client as seen by the status/verify handlers.  Each
field gives the response of one API call; `.error ()` is a thrown
request error. -/
structure Gateway where
  fetchOrder : String → Except Unit OrderView
  fetchPayments : String → Except Unit (List PayView)
  fetchPaymentLink : String → Except Unit LinkView
  listPayments : Nat → Except Unit (List FullPay)

/-- Gateway payment status values treated as settled
(`status === 'captured' || status === 'authorized'`). -/
def capturedOrAuthorized (s : String) : Bool :=
  s == "captured" || s == "authorized"

/-- Response of `GET /payment/status/:orderId`. -/
structure StatusResp where
  code : Nat
  status : Option String
  message : String
deriving DecidableEq, Repr

/-- A JavaScript runtime error raised while evaluating an expression. -/
inductive JsErr
  | referenceError
deriving DecidableEq, Repr

/-- The binding of the identifier `amount` visible inside the
`GET /payment/status/:orderId` handler.  In the source the only
declaration of `amount` is `const { numberPlate, amount = 50 } = req.body`
local to the `POST /payment/create` handler (routes/index.js:132); the
status handler (routes/index.js:356-518) and the module scope bind no
`amount`, so the occurrence at routes/index.js:477 is a free identifier:
evaluating it throws a `ReferenceError`.  Modelled as the absent
binding. -/
def statusHandlerAmount : Option Nat := none

/-- The callback of `allPayments.items.find(...)` at
routes/index.js:476-480: `p.amount === (amount * 100) && p.status ===
'captured' && new Date(p.created_at * 1000) > new Date(payment.createdAt)
- 60000`, evaluated under the handler's scope: when `amount` is unbound
the first conjunct throws. -/
def heuristicMatch (scopeAmount : Option Nat) (payment : PaymentRecord)
    (p : FullPay) : Except JsErr Bool :=
  match scopeAmount with
  | none => .error .referenceError
  | some a =>
    .ok (p.amount == a * 100 && p.status == "captured" &&
         decide ((p.created_at * 1000 : Int) > (payment.createdAt : Int) - 60000))

/-- `Array.prototype.find` with a callback that may throw: elements are
tested left to right; a thrown error propagates; if no element matches
the result is `undefined` (`none`). -/
def jsFind {α : Type} (f : α → Except JsErr Bool) :
    List α → Except JsErr (Option α)
  | [] => .ok none
  | x :: xs => do
    if (← f x) then pure (some x) else jsFind f xs

/-- The final `res.status(200)` of the status handler
(routes/index.js:509-513), reached when no method completed the
payment. -/
def statusFallback (st : SysState) (payment : PaymentRecord) :
    SysState × StatusResp :=
  (st, { code := 200, status := some payment.status.toStr,
         message := if payment.status == .completed then "Payment completed"
                    else "Payment pending" })

/-- A successful completion response of the status handler. -/
def statusSuccess : StatusResp :=
  { code := 200, status := some "completed", message := "Payment successful" }

/-- Method 4 of `GET /payment/status/:orderId` (routes/index.js:466-501):
if the record has no `razorpayPaymentId`, list 100 recent payments and
`find` a match with the routes/index.js:476-480 callback; errors of the
listing or of the callback are caught (`searchError`) and fall through;
a match completes the record with the match's id. -/
def statusMethod4 (gw : Gateway) (now : Nat) (st : SysState)
    (payment : PaymentRecord) : SysState × StatusResp :=
  if payment.razorpayPaymentId.isNone then
    match gw.listPayments 100 with
    | .error _ => statusFallback st payment
    | .ok allPayments =>
      match jsFind (heuristicMatch statusHandlerAmount payment) allPayments with
      | .error _ => statusFallback st payment
      | .ok none => statusFallback st payment
      | .ok (some m) =>
        (applyCompletion st (markCompleted payment (some m.id) now) now,
         statusSuccess)
  else statusFallback st payment

/-- Method 3 of `GET /payment/status/:orderId` (routes/index.js:432-464):
if the record carries a payment-link id, fetch the link (errors caught,
falling through); if the link is `paid` and lists payments whose first is
captured/authorized, complete with that payment's id. -/
def statusMethod3 (gw : Gateway) (now : Nat) (st : SysState)
    (payment : PaymentRecord) : SysState × StatusResp :=
  match payment.razorpayPaymentLinkId with
  | none => statusMethod4 gw now st payment
  | some lid =>
    match gw.fetchPaymentLink lid with
    | .error _ => statusMethod4 gw now st payment
    | .ok link =>
      if link.status == "paid" && !link.payments.isEmpty then
        match link.payments.head? with
        | none => statusMethod4 gw now st payment
        | some latest =>
          if capturedOrAuthorized latest.status then
            (applyCompletion st (markCompleted payment (some latest.id) now)
               now,
             statusSuccess)
          else statusMethod4 gw now st payment
      else statusMethod4 gw now st payment

/-- Method 2 of `GET /payment/status/:orderId` (routes/index.js:415-430):
if the fetched order's status is `paid`, complete the record (without
setting `razorpayPaymentId`). -/
def statusMethod2 (gw : Gateway) (now : Nat) (st : SysState)
    (payment : PaymentRecord) (order : OrderView) : SysState × StatusResp :=
  if order.status == "paid" then
    (applyCompletion st (markCompleted payment none now) now, statusSuccess)
  else statusMethod3 gw now st payment

/-- `GET /payment/status/:orderId` (routes/index.js:356-518).  Not-found
gives 404; an already-completed record returns immediately; otherwise the
order and its payments are fetched (a request error skips all methods,
outer catch routes/index.js:502-507); method 1 (routes/index.js:386-413)
completes when the first listed payment is captured/authorized, then
methods 2-4 follow in order. -/
def getStatusHandler (gw : Gateway) (now : Nat) (st : SysState)
    (orderId : String) : SysState × StatusResp :=
  match findByOrderId st.db orderId with
  | none => (st, { code := 404, status := none, message := "Payment not found" })
  | some payment =>
    if payment.status == .completed then
      (st, { code := 200, status := some "completed",
             message := "Payment completed" })
    else
      match gw.fetchOrder orderId with
      | .error _ => statusFallback st payment
      | .ok order =>
        match gw.fetchPayments orderId with
        | .error _ => statusFallback st payment
        | .ok items =>
          match items.head? with
          | some latest =>
            if capturedOrAuthorized latest.status then
              (applyCompletion st (markCompleted payment (some latest.id) now)
                 now,
               statusSuccess)
            else statusMethod2 gw now st payment order
          | none => statusMethod2 gw now st payment order

/-- The identifier triple fields of `payload.payment.entity` or of the
flat `payload.payment` shape: `.order_id`, `.id`, `.payment_link_id`. -/
structure PaymentEntityFields where
  order_id : Option String
  id : Option String
  payment_link_id : Option String
deriving DecidableEq, Repr

/-- `payload.payment`: either wraps an `entity` or carries the flat
fields itself. -/
structure PaymentObj where
  entity : Option PaymentEntityFields
  order_id : Option String
  id : Option String
  payment_link_id : Option String
deriving DecidableEq, Repr

/-- `payload.payment_link.entity`: `.id` and `.payments` (only
`payments[0].id` is read). -/
structure LinkEntity where
  id : String
  payments : List PayView
deriving DecidableEq, Repr

/-- `payload.payment_link`. -/
structure LinkObj where
  entity : Option LinkEntity
deriving DecidableEq, Repr

/-- `payload.order.entity`: only `.id` is read. -/
structure OrderEntity where
  id : String
deriving DecidableEq, Repr

/-- `payload.order`. -/
structure OrderObj where
  entity : Option OrderEntity
deriving DecidableEq, Repr

/-- A webhook body's `payload` with its optional shapes. -/
structure Payload where
  payment : Option PaymentObj
  payment_link : Option LinkObj
  order : Option OrderObj
  order_id : Option String
deriving DecidableEq, Repr

/-- A webhook body: the `.event` kind string and the payload. -/
structure WebhookEvent where
  event : String
  payload : Payload
deriving DecidableEq, Repr

/-- The id-extraction ladder of the webhook handler
(routes/index.js:590-613), first matching shape wins:
`payload?.payment?.entity`, then `payload?.payment` (flat), then
`payload?.payment_link?.entity`, then `payload?.order?.entity`, then
`payload?.order_id`; no match leaves all three ids `null`.  Result is
`(orderId, paymentId, paymentLinkId)`. -/
def extractIds (pl : Payload) :
    Option String × Option String × Option String :=
  match pl.payment with
  | some pobj =>
    match pobj.entity with
    | some e => (e.order_id, e.id, e.payment_link_id)
    | none => (pobj.order_id, pobj.id, pobj.payment_link_id)
  | none =>
    match pl.payment_link.bind (·.entity) with
    | some le => (none, (le.payments.head?).map (·.id), some le.id)
    | none =>
      match pl.order.bind (·.entity) with
      | some oe => (some oe.id, none, none)
      | none =>
        match pl.order_id with
        | some oid => (some oid, none, none)
        | none => (none, none, none)

/-- The record-lookup ladder of the webhook handler
(routes/index.js:615-632): by `razorpayOrderId`, then by
`razorpayPaymentLinkId`, then by `razorpayPaymentId`; each lookup is
attempted only if the corresponding id was extracted (truthy). -/
def webhookLookup (db : List PaymentRecord) (orderId paymentId
    paymentLinkId : Option String) : Option PaymentRecord :=
  let byOrder := if jsTruthy orderId then findByOrderId db (orderId.getD "")
                 else none
  match byOrder with
  | some p => some p
  | none =>
    let byLink := if jsTruthy paymentLinkId then
        db.find? (fun r => r.razorpayPaymentLinkId == paymentLinkId)
      else none
    match byLink with
    | some p => some p
    | none =>
      if jsTruthy paymentId then
        db.find? (fun r => r.razorpayPaymentId == paymentId)
      else none

/-- Response of `POST /payment/webhook`. -/
structure WebhookResp where
  code : Nat
  message : String
deriving DecidableEq, Repr

/-- The webhook event kinds that are processed
(routes/index.js:585). -/
def isCompletionEvent (ev : String) : Bool :=
  ev == "payment.captured" || ev == "order.paid" || ev == "payment_link.paid"

/-- The body of the webhook handler after signature checking
(routes/index.js:578-665): for a completion event, extract the id triple,
look the record up, and — when found with status not `completed` — mutate
it as at routes/index.js:637-651 (status, payment id if extracted,
payment-link id if extracted and previously absent, `paidAt`), then write
the guest row.  Every path answers 200. -/
def webhookProcess (event : WebhookEvent) (now : Nat) (st : SysState) :
    SysState × WebhookResp :=
  if isCompletionEvent event.event then
    let ids := extractIds event.payload
    let orderId := ids.1
    let paymentId := ids.2.1
    let paymentLinkId := ids.2.2
    match webhookLookup st.db orderId paymentId paymentLinkId with
    | none => (st, { code := 200, message := "Webhook processed" })
    | some payment =>
      if payment.status != .completed then
        let p1 := markCompleted payment
          (if jsTruthy paymentId then paymentId else none) now
        let setLink :=
          jsTruthy paymentLinkId && !(jsTruthy payment.razorpayPaymentLinkId)
        let p2 := { p1 with razorpayPaymentLinkId :=
          if setLink then paymentLinkId else p1.razorpayPaymentLinkId }
        (applyCompletion st p2 now,
         { code := 200, message := "Webhook processed" })
      else (st, { code := 200, message := "Webhook processed" })
  else (st, { code := 200, message := "Webhook processed" })

/-- `POST /payment/webhook` (routes/index.js:548-671).  `hmac` stands for
`crypto.createHmac('sha256', secret).update(body).digest('hex')`;
`bodyStr` is `JSON.stringify(req.body)` and `event` the parsed body.
Signature verification runs only when **both** a secret is configured and
a signature header arrived (`if (webhookSecret && signature)`,
routes/index.js:561); a mismatch answers 400 and changes nothing.  For a
completion event the ids are extracted, the record looked up, and — when
found with status not `completed` — mutated exactly as at
routes/index.js:637-651: status, payment id (if extracted), payment-link
id (if extracted and previously absent), `paidAt`; then the guest row is
written.  The gate-trigger variables are never touched.  Every non-error
path answers 200. -/
def webhookHandler (hmac : String → String → String) (secret : String)
    (signature : Option String) (bodyStr : String) (event : WebhookEvent)
    (now : Nat) (st : SysState) : SysState × WebhookResp :=
  if !(secret == "") && jsTruthy signature then
    let expected := hmac secret bodyStr
    if signature != some expected then
      (st, { code := 400, message := "Invalid signature" })
    else webhookProcess event now st
  else webhookProcess event now st

/-- Response of `POST /payment/verify/:orderId`. -/
structure VerifyResp where
  code : Nat
  success : Option Bool
  status : Option String
  message : String
deriving DecidableEq, Repr

/-- The mutation-or-acknowledge block shared by both verify methods
(routes/index.js:701-723 and 743-765): when the record is not yet
completed, complete it with the given payment id and write the guest row;
when it already is, answer "Payment already verified" without touching
anything. -/
def verifyComplete (st : SysState) (payment : PaymentRecord)
    (pid : Option String) (now : Nat) : SysState × VerifyResp :=
  if payment.status != .completed then
    (applyCompletion st (markCompleted payment pid now) now,
     { code := 200, success := some true, status := some "completed",
       message := "Payment verified and plate saved" })
  else
    (st, { code := 200, success := some true, status := some "completed",
           message := "Payment already verified" })

/-- Method 2 of `POST /payment/verify/:orderId`
(routes/index.js:731-776): fetch the order and its payments — here a
request error propagates to the surrounding catch and answers 500
(routes/index.js:777-783); if payments are listed and the first is
captured/authorized, or the order is `paid`, run the completion block;
otherwise answer `success = false` with the record's current status. -/
def verifyMethod2 (gw : Gateway) (now : Nat) (st : SysState)
    (payment : PaymentRecord) (orderId : String) : SysState × VerifyResp :=
  match gw.fetchOrder orderId with
  | .error _ =>
    (st, { code := 500, success := some false, status := none,
           message := "Verification error" })
  | .ok order =>
    match gw.fetchPayments orderId with
    | .error _ =>
      (st, { code := 500, success := some false, status := none,
             message := "Verification error" })
    | .ok items =>
      match items.head? with
      | some latest =>
        if capturedOrAuthorized latest.status || order.status == "paid" then
          verifyComplete st payment (some latest.id) now
        else
          (st, { code := 200, success := some false,
                 status := some payment.status.toStr,
                 message := "Payment not yet completed" })
      | none =>
        (st, { code := 200, success := some false,
               status := some payment.status.toStr,
               message := "Payment not yet completed" })

/-- `POST /payment/verify/:orderId` (routes/index.js:674-788).  Not-found
gives 404.  Method 1 (routes/index.js:691-729): if the record carries a
payment-link id, fetch the link (errors caught, falling through to
method 2); if the link is `paid`, lists payments and the first is
captured/authorized, run the completion block; in every other case fall
through to method 2. -/
def manualVerifyHandler (gw : Gateway) (now : Nat) (st : SysState)
    (orderId : String) : SysState × VerifyResp :=
  match findByOrderId st.db orderId with
  | none =>
    (st, { code := 404, success := none, status := none,
           message := "Payment not found" })
  | some payment =>
    match payment.razorpayPaymentLinkId with
    | none => verifyMethod2 gw now st payment orderId
    | some lid =>
      match gw.fetchPaymentLink lid with
      | .error _ => verifyMethod2 gw now st payment orderId
      | .ok link =>
        if link.status == "paid" && !link.payments.isEmpty then
          match link.payments.head? with
          | some latest =>
            if capturedOrAuthorized latest.status then
              verifyComplete st payment (some latest.id) now
            else verifyMethod2 gw now st payment orderId
          | none => verifyMethod2 gw now st payment orderId
        else verifyMethod2 gw now st payment orderId

/-- Response of `POST /payment/create`. -/
structure CreateResp where
  code : Nat
  orderId : Option String
  qrCodeUrl : Option String
  paymentUrl : Option String
  amount : Option Nat
  message : String
deriving DecidableEq, Repr

/-- Observable side effects of `POST /payment/create` towards the
gateway: whether `razorpay.orders.create` was invoked. -/
structure CreateEffects where
  orderCreateCalled : Bool
deriving DecidableEq, Repr

/-- `POST /payment/create` (routes/index.js:130-320).  `qrGen` stands for
`QRCode.toDataURL` (its rendering errors are `.error ()`), `keyOk` for
the credential validation of routes/index.js:168-174, `orderRes` for the
response of `razorpay.orders.create`, `linkRes` for
`razorpay.paymentLink.create` as `(url, id)` with a creation error
selecting the fallback checkout URL (routes/index.js:233-239).

A missing or non-10-character plate answers 400.  When a pending record
for the uppercased plate exists (routes/index.js:139-165), its data is
returned unchanged — regenerating the QR image from the stored payment
URL only when the stored one is absent — and nothing is created.
Otherwise an order and payment link are created, a QR is rendered (an
invalid URL or a rendering error leaves it `null`,
routes/index.js:244-269) and a new pending record is saved. -/
def createPaymentHandler (qrGen : String → Except Unit String)
    (keyOk : Bool) (orderRes : Except Unit String)
    (linkRes : Except Unit (String × String)) (keyId : String) (now : Nat)
    (st : SysState) (numberPlate : String) (amount : Nat) :
    SysState × CreateResp × CreateEffects :=
  if numberPlate == "" || numberPlate.length != 10 then
    (st, { code := 400, orderId := none, qrCodeUrl := none,
           paymentUrl := none, amount := none,
           message := "Invalid number plate (must be 10 characters)" },
     { orderCreateCalled := false })
  else
    match st.db.find? (fun r =>
        r.numberPlate == jsToUpper numberPlate && r.status == .pending) with
    | some existingPayment =>
      let qr0 := existingPayment.qrCodeUrl
      let qr :=
        if !(jsTruthy qr0) && jsTruthy existingPayment.paymentUrl then
          match qrGen (existingPayment.paymentUrl.getD "") with
          | .ok q => some q
          | .error _ => qr0
        else qr0
      (st, { code := 200, orderId := some existingPayment.razorpayOrderId,
             qrCodeUrl := qr, paymentUrl := existingPayment.paymentUrl,
             amount := some existingPayment.amount,
             message := "Existing pending payment found" },
       { orderCreateCalled := false })
    | none =>
      if !keyOk then
        (st, { code := 500, orderId := none, qrCodeUrl := none,
               paymentUrl := none, amount := none,
               message := "Razorpay credentials not configured" },
         { orderCreateCalled := false })
      else
        match orderRes with
        | .error _ =>
          (st, { code := 500, orderId := none, qrCodeUrl := none,
                 paymentUrl := none, amount := none,
                 message := "Razorpay order creation error" },
           { orderCreateCalled := true })
        | .ok oid =>
          let linkData := match linkRes with
            | .ok (url, lid) => (url, some lid)
            | .error _ =>
              ("https://checkout.razorpay.com/v1/checkout.js?key=" ++ keyId ++
                 "&order_id=" ++ oid, none)
          let paymentLinkUrl := linkData.1
          let qr :=
            if paymentLinkUrl == "" || paymentLinkUrl.length > 2000 then none
            else match qrGen paymentLinkUrl with
              | .ok q => some q
              | .error _ => none
          let record : PaymentRecord :=
            { numberPlate := jsToUpper numberPlate
              razorpayOrderId := oid
              razorpayPaymentId := none
              amount := amount
              status := .pending
              qrCodeUrl := qr
              paymentUrl := some paymentLinkUrl
              razorpayPaymentLinkId := linkData.2
              createdAt := now
              paidAt := none }
          ({ st with db := st.db ++ [record] },
           { code := 201, orderId := some oid, qrCodeUrl := qr,
             paymentUrl := some paymentLinkUrl, amount := some amount,
             message := "Payment order created successfully" },
           { orderCreateCalled := true })

/-- One inbound request of the reconciliation core, with the external
responses it will see. -/
inductive Op where
  | create (qrGen : String → Except Unit String) (keyOk : Bool)
      (orderRes : Except Unit String) (linkRes : Except Unit (String × String))
      (keyId : String) (plate : String) (amount : Nat)
  | status (gw : Gateway) (orderId : String)
  | webhook (hmac : String → String → String) (secret : String)
      (signature : Option String) (bodyStr : String) (event : WebhookEvent)
  | verify (gw : Gateway) (orderId : String)

/-- The state after serving one request. -/
def applyOp (now : Nat) (st : SysState) : Op → SysState
  | .create q k o l kid p a => (createPaymentHandler q k o l kid now st p a).1
  | .status gw oid => (getStatusHandler gw now st oid).1
  | .webhook h s sig b ev => (webhookHandler h s sig b ev now st).1
  | .verify gw oid => (manualVerifyHandler gw now st oid).1

/-- The `PaymentRecord` state-machine invariant of the spec's data model:
the status is never `failed` (no code path writes it) and `paidAt` is
non-null exactly on completed records. -/
def RecordInv (r : PaymentRecord) : Prop :=
  r.status ≠ .failed ∧ (r.paidAt ≠ none ↔ r.status = .completed)

instance (r : PaymentRecord) : Decidable (RecordInv r) := by
  unfold RecordInv; infer_instance

/-- What one request must do to the `Payment` collection: keep the
invariant on every record and leave every completed record untouched. -/
def GoodStep (st st' : SysState) : Prop :=
  (∀ r' ∈ st'.db, RecordInv r') ∧
  (∀ r ∈ st.db, r.status = .completed → r ∈ st'.db)

/-!
Interleaved execution of the completion section.  Node's event loop
switches between request handlers at every `await`; inside the completion
section of the webhook/polling paths the `await` points are: the record
read (`findOne`), the record write (`payment.save()`), the guest-row read
(`GuestNumberModel.findOne`) and the guest-row write
(`guestNumber.save()`).  The code between two `await`s runs atomically —
in particular the `payment.status !== 'completed'` test runs together
with the read that produced the document.
-/

/-- One atomic segment of the completion section. -/
inductive RStep
  | readRec
  | saveRec
  | readGuest
  | insertGuest
deriving DecidableEq, Repr

/-- The segments of one completion invocation, in order. -/
def completionProg : List RStep :=
  [.readRec, .saveRec, .readGuest, .insertGuest]

/-- Arguments of one racing completion invocation: which order it
completes, the external payment id it writes and its `Date.now()`. -/
structure RaceInv where
  orderId : String
  pid : Option String
  now : Nat
deriving DecidableEq, Repr

/-- Per-invocation local state: the remaining segments, the document
snapshot read by `findOne`, the guest-row existence answer, and whether
the invocation entered the winning branch (observed a not-completed
status). -/
structure ThreadSt where
  prog : List RStep
  snapshot : Option PaymentRecord
  guestSeen : Option Bool
  won : Bool
deriving DecidableEq, Repr

/-- A fresh invocation about to run the completion section. -/
def initialThread : ThreadSt :=
  { prog := completionProg, snapshot := none, guestSeen := none,
    won := false }

/-- Shared state plus the two racing invocations. -/
structure RaceSt where
  db : List PaymentRecord
  ledger : List GuestEntry
  t1 : ThreadSt
  t2 : ThreadSt
deriving DecidableEq, Repr

/-- Runs the next atomic segment of one invocation against the shared
state.  `readRec` reads the record and evaluates the
`status !== 'completed'` guard on the snapshot (a loser skips the rest of
the section); `saveRec` persists the snapshot mutated by the
routes/index.js:637-647 block; `readGuest` evaluates the guest existence
check of routes/index.js:327-330 against the shared ledger; `insertGuest`
inserts the guest row when that check answered `false`. -/
def stepThread (inv : RaceInv) (db : List PaymentRecord)
    (ledger : List GuestEntry) (t : ThreadSt) :
    List PaymentRecord × List GuestEntry × ThreadSt :=
  match t.prog with
  | [] => (db, ledger, t)
  | s :: rest =>
    match s with
    | .readRec =>
      match findByOrderId db inv.orderId with
      | none => (db, ledger, { t with prog := [] })
      | some p =>
        if p.status != .completed then
          (db, ledger,
           { t with prog := rest, snapshot := some p, won := true })
        else
          (db, ledger, { t with prog := [], snapshot := some p })
    | .saveRec =>
      match t.snapshot with
      | none => (db, ledger, { t with prog := rest })
      | some p =>
        (saveDoc db (markCompleted p inv.pid inv.now), ledger,
         { t with prog := rest })
    | .readGuest =>
      match t.snapshot with
      | none => (db, ledger, { t with prog := rest })
      | some p =>
        let p' := markCompleted p inv.pid inv.now
        (db, ledger,
         { t with prog := rest, guestSeen := some (guestExists ledger p') })
    | .insertGuest =>
      match t.snapshot, t.guestSeen with
      | some p, some false =>
        let p' := markCompleted p inv.pid inv.now
        (db, ledger ++ [guestEntryOf p' inv.now], { t with prog := rest })
      | _, _ => (db, ledger, { t with prog := rest })

/-- One scheduler decision: `true` runs invocation 1's next segment,
`false` invocation 2's. -/
def raceStep (inv1 inv2 : RaceInv) (s : RaceSt) (who : Bool) : RaceSt :=
  if who then
    let r := stepThread inv1 s.db s.ledger s.t1
    { s with db := r.1, ledger := r.2.1, t1 := r.2.2 }
  else
    let r := stepThread inv2 s.db s.ledger s.t2
    { s with db := r.1, ledger := r.2.1, t2 := r.2.2 }

/-- Runs a whole interleaving. -/
def runSchedule (inv1 inv2 : RaceInv) (sched : List Bool) (s : RaceSt) :
    RaceSt :=
  sched.foldl (raceStep inv1 inv2) s

/-- A concrete completed payment document used as input for the
guest-ledger write. -/
def cPay : PaymentRecord :=
  { numberPlate := "KA05MN9876"
    razorpayOrderId := "order_c6"
    razorpayPaymentId := some "pay_c6"
    amount := 50
    status := .completed
    qrCodeUrl := none
    paymentUrl := none
    razorpayPaymentLinkId := none
    createdAt := 1000
    paidAt := some 2000 }

/-- A pending record with no known external payment id, as required for
the heuristic fallback to be attempted. -/
def hRec : PaymentRecord :=
  { numberPlate := "DL01AB2345"
    razorpayOrderId := "order_h1"
    razorpayPaymentId := none
    amount := 50
    status := .pending
    qrCodeUrl := none
    paymentUrl := some "https://rzp.io/l/h1"
    razorpayPaymentLinkId := none
    createdAt := 100000
    paidAt := none }

/-- A gateway on which strategies 1-3 give no positive answer while the
account-wide listing contains a captured payment of 5000 paise (the
record's 50 rupees) created at Unix second 101 — inside the window
anchored at the record's creation time 100000 ms. -/
def hGw : Gateway :=
  { fetchOrder := fun _ => .ok { status := "created" }
    fetchPayments := fun _ => .ok []
    fetchPaymentLink := fun _ => .error ()
    listPayments := fun _ =>
      .ok [{ id := "pay_match", amount := 5000, status := "captured",
             created_at := 101 }] }

/-- A pending record awaiting its `payment.captured` webhook. -/
def wRec : PaymentRecord :=
  { numberPlate := "DL01AB2345"
    razorpayOrderId := "order_w1"
    razorpayPaymentId := none
    amount := 50
    status := .pending
    qrCodeUrl := none
    paymentUrl := some "https://rzp.io/l/w1"
    razorpayPaymentLinkId := none
    createdAt := 100000
    paidAt := none }

/-- A `payment.captured` webhook body for `wRec`'s order, in the
payment-entity shape. -/
def wEvent : WebhookEvent :=
  { event := "payment.captured"
    payload :=
      { payment := some
          { entity := some
              { order_id := some "order_w1", id := some "pay_w1",
                payment_link_id := none }
            order_id := none, id := none, payment_link_id := none }
        payment_link := none, order := none, order_id := none } }

/-- A second pending record, used for the signature-handling claim. -/
def w2Rec : PaymentRecord :=
  { numberPlate := "HR26DK8337"
    razorpayOrderId := "order_w2"
    razorpayPaymentId := none
    amount := 50
    status := .pending
    qrCodeUrl := none
    paymentUrl := some "https://rzp.io/l/w2"
    razorpayPaymentLinkId := none
    createdAt := 100000
    paidAt := none }

/-- A `payment.captured` webhook body for `w2Rec`'s order. -/
def w2Event : WebhookEvent :=
  { event := "payment.captured"
    payload :=
      { payment := some
          { entity := some
              { order_id := some "order_w2", id := some "pay_w2",
                payment_link_id := none }
            order_id := none, id := none, payment_link_id := none }
        payment_link := none, order := none, order_id := none } }

/-- A pending record raced on by two concurrent completion
invocations. -/
def rRec : PaymentRecord :=
  { numberPlate := "TN10AQ1234"
    razorpayOrderId := "order_race"
    razorpayPaymentId := none
    amount := 50
    status := .pending
    qrCodeUrl := none
    paymentUrl := some "https://rzp.io/l/race"
    razorpayPaymentLinkId := none
    createdAt := 100000
    paidAt := none }

/-- The webhook delivery racing on `rRec`. -/
def raceInv1 : RaceInv := { orderId := "order_race", pid := some "pay_A", now := 200000 }

/-- The concurrent polling reconciliation racing on `rRec`. -/
def raceInv2 : RaceInv := { orderId := "order_race", pid := some "pay_B", now := 200001 }

/-- The alternating interleaving: both invocations read the record before
either writes, and both run the guest-row existence check before either
insert. -/
def raceSched : List Bool :=
  [true, false, true, false, true, false, true, false]

/-- An existing pending record for the create-payment claim's witness. -/
def exRec : PaymentRecord :=
  { numberPlate := "DL01AB2345"
    razorpayOrderId := "order_c10"
    razorpayPaymentId := none
    amount := 50
    status := .pending
    qrCodeUrl := some "data:image/png;c10"
    paymentUrl := some "https://rzp.io/l/c10"
    razorpayPaymentLinkId := some "plink_c10"
    createdAt := 1000
    paidAt := none }

/-- A completed record with no payment-link id, for the manual-verify
counterexample. -/
def vRec : PaymentRecord :=
  { numberPlate := "GJ01AA1111"
    razorpayOrderId := "order_v"
    razorpayPaymentId := some "pay_v"
    amount := 50
    status := .completed
    qrCodeUrl := none
    paymentUrl := some "https://rzp.io/l/v"
    razorpayPaymentLinkId := none
    createdAt := 1000
    paidAt := some 2000 }

/-- A gateway whose order fetch throws (network failure). -/
def vGw : Gateway :=
  { fetchOrder := fun _ => .error ()
    fetchPayments := fun _ => .error ()
    fetchPaymentLink := fun _ => .error ()
    listPayments := fun _ => .error () }

/-- A pending record for the state-machine witness. -/
def p9a : PaymentRecord :=
  { numberPlate := "MH01AB1234", razorpayOrderId := "order_p1",
    razorpayPaymentId := none, amount := 50, status := .pending,
    qrCodeUrl := none, paymentUrl := none, razorpayPaymentLinkId := none,
    createdAt := 10, paidAt := none }

/-- A completed record for the state-machine witness. -/
def p9b : PaymentRecord :=
  { numberPlate := "MH02CD5678", razorpayOrderId := "order_p2",
    razorpayPaymentId := some "pay_p2", amount := 50, status := .completed,
    qrCodeUrl := none, paymentUrl := none, razorpayPaymentLinkId := none,
    createdAt := 20, paidAt := some 30 }

/-- An `order.paid` webhook (bare order-id shape) completing `p9a`. -/
def op9 : Op :=
  .webhook (fun k b => k ++ b) "" none ""
    { event := "order.paid"
      payload := { payment := none, payment_link := none, order := none,
                   order_id := some "order_p1" } }

/-- C7: mailbox one-shot delivery — after a `set`, a poll before the
expiry answers `triggered = true` with the stored plate and empties the
slot in the same operation, and the poll immediately after answers
`triggered = false`. -/
theorem mailbox_one_shot (g : GateState) (now0 now1 now2 : Nat)
    (plate : Option String) (h : now1 ≤ now0 + 10000) :
    (pollAndClear now1 (setTrigger now0 plate g).1).2.triggered = true ∧
    (pollAndClear now1 (setTrigger now0 plate g).1).2.plate =
      some (jsOrStr plate "UNKNOWN") ∧
    (pollAndClear now1 (setTrigger now0 plate g).1).1 = initialGate ∧
    (pollAndClear now2
        (pollAndClear now1 (setTrigger now0 plate g).1).1).2.triggered =
      false := by
  have hn : ¬ now1 > now0 + 10000 := Nat.not_lt.mpr h
  simp [pollAndClear, setTrigger, initialGate, hn]

/-- C7 witness. -/
theorem mailbox_one_shot_witness :
    (1000 : Nat) ≤ 500 + 10000 ∧
    ((pollAndClear 1000 (setTrigger 500 (some "MH12AB1234") initialGate).1).2.triggered
        = true ∧
      (pollAndClear 1000 (setTrigger 500 (some "MH12AB1234") initialGate).1).2.plate
        = some (jsOrStr (some "MH12AB1234") "UNKNOWN") ∧
      (pollAndClear 1000 (setTrigger 500 (some "MH12AB1234") initialGate).1).1
        = initialGate ∧
      (pollAndClear 2000
          (pollAndClear 1000
            (setTrigger 500 (some "MH12AB1234") initialGate).1).1).2.triggered
        = false) :=
  ⟨by decide,
   mailbox_one_shot initialGate 500 1000 2000 (some "MH12AB1234") (by decide)⟩

/-- C8: mailbox TTL — every `set` stamps `expiry = now + 10000` ms, and a
poll strictly after the expiry answers `triggered = false` and clears the
slot. -/
theorem mailbox_ttl (g : GateState) (now0 now1 : Nat) (plate : Option String)
    (h : now1 > now0 + 10000) :
    (setTrigger now0 plate g).1.expiry = some (now0 + 10000) ∧
    (pollAndClear now1 (setTrigger now0 plate g).1).2.triggered = false ∧
    (pollAndClear now1 (setTrigger now0 plate g).1).1 = initialGate := by
  refine ⟨rfl, ?_, ?_⟩ <;> simp [pollAndClear, setTrigger, initialGate, h]

/-- C8 witness. -/
theorem mailbox_ttl_witness :
    (20000 : Nat) > 500 + 10000 ∧
    ((setTrigger 500 (some "MH12AB1234") initialGate).1.expiry
        = some (500 + 10000) ∧
      (pollAndClear 20000 (setTrigger 500 (some "MH12AB1234") initialGate).1).2.triggered
        = false ∧
      (pollAndClear 20000 (setTrigger 500 (some "MH12AB1234") initialGate).1).1
        = initialGate) :=
  ⟨by decide, mailbox_ttl initialGate 500 20000 (some "MH12AB1234") (by decide)⟩

/-- C6 counterexample: with a row for the same (plate, orderId) already
in the ledger, `saveGuestNumberPlateAfterPayment` returns `true` — not
`false` as the claim states — while indeed inserting nothing. -/
theorem recordIfAbsent_true_on_existing :
    (saveGuestNumberPlateAfterPayment [guestEntryOf cPay 2000] cPay 3000).2
      = true ∧
    (saveGuestNumberPlateAfterPayment [guestEntryOf cPay 2000] cPay 3000).1
      = [guestEntryOf cPay 2000] := by
  constructor <;>
    simp [saveGuestNumberPlateAfterPayment, guestExists, guestEntryOf,
      List.find?]

/-- C6 amended: the guest-ledger write inserts a new row exactly when no
row for the (uppercased plate, orderId) pair exists, and returns `true`
both when it inserts and when the row already existed; `false` is
reserved for storage errors. -/
theorem recordIfAbsent_behavior (ledger : List GuestEntry)
    (payment : PaymentRecord) (now : Nat) :
    (saveGuestNumberPlateAfterPayment ledger payment now).2 = true ∧
    (saveGuestNumberPlateAfterPayment ledger payment now).1 =
      (if guestExists ledger payment then ledger
       else ledger ++ [guestEntryOf payment now]) := by
  unfold saveGuestNumberPlateAfterPayment
  split <;> simp_all

/-- C5: evaluating the status handler at an input on which the claim
says the heuristic fallback completes the record.  The callback of
`allPayments.items.find` (routes/index.js:477) reads the identifier
`amount`, which is unbound in the handler's scope, so the first callback
evaluation throws a `ReferenceError`; the `searchError` catch swallows it
and the record stays pending — the listed matching captured payment is
never selected. -/
theorem heuristic_never_completes :
    (getStatusHandler hGw 200000 ⟨[hRec], [], initialGate⟩ "order_h1").1 =
      ⟨[hRec], [], initialGate⟩ ∧
    (getStatusHandler hGw 200000 ⟨[hRec], [], initialGate⟩ "order_h1").2.status
      = some "pending" ∧
    jsFind (heuristicMatch statusHandlerAmount hRec)
      [{ id := "pay_match", amount := 5000, status := "captured",
         created_at := 101 }] = .error .referenceError := by
  refine ⟨rfl, rfl, rfl⟩

/-- C1 counterexample: a `payment.captured` webhook for a pending order
completes the record and writes the guest ledger, but leaves the
gate-trigger variables untouched, so the next `GET /trigger-gate` answers
`triggered = false` — not `triggered = true` with the record's plate as
the claim states.  (No webhook secret is configured and the gate slot
starts empty.) -/
theorem webhook_completion_does_not_arm_gate :
    ((webhookHandler (fun k b => k ++ b) "" none "" wEvent 200000
        ⟨[wRec], [], initialGate⟩).1.db.map (·.status)) = [.completed] ∧
    (webhookHandler (fun k b => k ++ b) "" none "" wEvent 200000
        ⟨[wRec], [], initialGate⟩).1.ledger.length = 1 ∧
    (webhookHandler (fun k b => k ++ b) "" none "" wEvent 200000
        ⟨[wRec], [], initialGate⟩).1.gate = initialGate ∧
    (pollAndClear 200001
        (webhookHandler (fun k b => k ++ b) "" none "" wEvent 200000
          ⟨[wRec], [], initialGate⟩).1.gate).2.triggered = false := by
  refine ⟨rfl, rfl, rfl, rfl⟩

/-- C1 amended: no completion path of the webhook handler arms the
gate-signal mailbox — the handler leaves the gate-trigger variables of
the state exactly as it found them, whatever the event, signature
configuration or record store; arming happens only in
`GET /check/:numberPlate` and `POST /trigger-gate`.  Consequently a poll
of an unarmed gate after a `payment.captured` webhook answers
`triggered = false`. -/
theorem webhook_never_touches_gate (hmac : String → String → String)
    (secret : String) (signature : Option String) (bodyStr : String)
    (event : WebhookEvent) (now : Nat) (st : SysState) :
    (webhookHandler hmac secret signature bodyStr event now st).1.gate =
      st.gate := by
  simp only [webhookHandler, webhookProcess, applyCompletion]
  repeat' split
  all_goals simp

/-- C2 counterexample: with the webhook secret `"whsec_test"` configured
and the signature header missing, the handler does **not** reject — the
guard `if (webhookSecret && signature)` skips verification entirely, the
event is processed (200) and the pending record's status changes to
completed. -/
theorem webhook_missing_signature_processed :
    (webhookHandler (fun k b => k ++ b) "whsec_test" none "body" w2Event
        5000 ⟨[w2Rec], [], initialGate⟩).2.code = 200 ∧
    ((webhookHandler (fun k b => k ++ b) "whsec_test" none "body" w2Event
        5000 ⟨[w2Rec], [], initialGate⟩).1.db.map (·.status)) =
      [.completed] := by
  exact ⟨rfl, rfl⟩

/-- C2 amended: when a webhook secret is configured **and a signature
header is present** but differs from the HMAC-SHA256 of the body under
that secret, the request is rejected with 400 "Invalid signature" and the
state — payment records, guest ledger and gate variables — is exactly
unchanged.  (A missing signature header skips verification, see the C2
counterexample.) -/
theorem webhook_sig_mismatch (hmac : String → String → String)
    (secret : String) (sig : String) (bodyStr : String)
    (event : WebhookEvent) (now : Nat) (st : SysState)
    (hs : secret ≠ "") (hsig : sig ≠ "") (hne : sig ≠ hmac secret bodyStr) :
    webhookHandler hmac secret (some sig) bodyStr event now st =
      (st, { code := 400, message := "Invalid signature" }) := by
  unfold webhookHandler
  simp [jsTruthy, hs, hsig, hne]

/-- C2 amended witness. -/
theorem webhook_sig_mismatch_witness :
    ("whsec_test" : String) ≠ "" ∧ ("bad" : String) ≠ "" ∧
    ("bad" : String) ≠ (fun k b => k ++ b) "whsec_test" "body" ∧
    webhookHandler (fun k b => k ++ b) "whsec_test" (some "bad") "body"
        w2Event 5000 ⟨[w2Rec], [], initialGate⟩ =
      (⟨[w2Rec], [], initialGate⟩,
       { code := 400, message := "Invalid signature" }) :=
  ⟨by decide, by decide, by decide,
   webhook_sig_mismatch (fun k b => k ++ b) "whsec_test" "bad" "body"
     w2Event 5000 ⟨[w2Rec], [], initialGate⟩ (by decide) (by decide)
     (by decide)⟩

/-- C3: the completion transition is a read-then-write
(`findOne` … `payment.save()`), not an atomic compare-and-set; under the
alternating interleaving of two concurrent invocations on the same
pending order — legal, since Node yields at every `await` — **both**
invocations observe a not-completed status (both "win"), both perform
side effects, and the guest ledger ends with **two** rows for the order,
contradicting the at-most-one-winner / exactly-one-row claim. -/
theorem tryComplete_race_two_winners :
    (runSchedule raceInv1 raceInv2 raceSched
        ⟨[rRec], [], initialThread, initialThread⟩).t1.won = true ∧
    (runSchedule raceInv1 raceInv2 raceSched
        ⟨[rRec], [], initialThread, initialThread⟩).t2.won = true ∧
    (runSchedule raceInv1 raceInv2 raceSched
        ⟨[rRec], [], initialThread, initialThread⟩).ledger.length = 2 := by
  refine ⟨rfl, rfl, rfl⟩

/-- C10: a create-payment request for a plate that passes validation and
whose uppercased form already has a pending record answers 200 with that
record's order id, payment URL and amount, leaves the whole state
unchanged, never calls `razorpay.orders.create`, and returns either the
stored QR image or one regenerated from the stored payment URL. -/
theorem create_returns_existing_pending
    (qrGen : String → Except Unit String) (keyOk : Bool)
    (orderRes : Except Unit String) (linkRes : Except Unit (String × String))
    (keyId : String) (now : Nat) (st : SysState) (plate : String)
    (amount : Nat) (ex : PaymentRecord)
    (hlen : plate.length = 10)
    (hfind : st.db.find? (fun r =>
        r.numberPlate == jsToUpper plate && r.status == .pending) = some ex) :
    (createPaymentHandler qrGen keyOk orderRes linkRes keyId now st plate
        amount).1 = st ∧
    (createPaymentHandler qrGen keyOk orderRes linkRes keyId now st plate
        amount).2.2.orderCreateCalled = false ∧
    (createPaymentHandler qrGen keyOk orderRes linkRes keyId now st plate
        amount).2.1.code = 200 ∧
    (createPaymentHandler qrGen keyOk orderRes linkRes keyId now st plate
        amount).2.1.orderId = some ex.razorpayOrderId ∧
    (createPaymentHandler qrGen keyOk orderRes linkRes keyId now st plate
        amount).2.1.paymentUrl = ex.paymentUrl ∧
    (createPaymentHandler qrGen keyOk orderRes linkRes keyId now st plate
        amount).2.1.amount = some ex.amount ∧
    ((createPaymentHandler qrGen keyOk orderRes linkRes keyId now st plate
        amount).2.1.qrCodeUrl = ex.qrCodeUrl ∨
      ∃ q, qrGen (ex.paymentUrl.getD "") = .ok q ∧
        (createPaymentHandler qrGen keyOk orderRes linkRes keyId now st plate
          amount).2.1.qrCodeUrl = some q) := by
  have hne : (plate == "") = false := by
    cases h : plate == "" with
    | false => rfl
    | true =>
      exfalso
      have : plate = "" := by exact eq_of_beq h
      subst this
      simp at hlen
  simp only [createPaymentHandler, hne, hlen, hfind]
  refine ⟨by simp, by simp, by simp, by simp, by simp, by simp, ?_⟩
  by_cases hq : (!jsTruthy ex.qrCodeUrl && jsTruthy ex.paymentUrl) = true
  · simp only [hq]
    cases hg : qrGen (ex.paymentUrl.getD "") with
    | ok q => right; exact ⟨q, rfl, by simp⟩
    | error e => left; simp
  · left
    simp only [Bool.not_eq_true] at hq
    simp [hq]

/-- C10 witness. -/
theorem create_returns_existing_pending_witness :
    ("DL01AB2345" : String).length = 10 ∧
    ([exRec].find? (fun r =>
        r.numberPlate == jsToUpper "DL01AB2345" && r.status == .pending) =
      some exRec) ∧
    ((createPaymentHandler (fun _ => .ok "QR") true (.ok "order_new")
        (.ok ("u", "l")) "key" 5000 ⟨[exRec], [], initialGate⟩ "DL01AB2345"
        50).1 = ⟨[exRec], [], initialGate⟩ ∧
      (createPaymentHandler (fun _ => .ok "QR") true (.ok "order_new")
        (.ok ("u", "l")) "key" 5000 ⟨[exRec], [], initialGate⟩ "DL01AB2345"
        50).2.2.orderCreateCalled = false ∧
      (createPaymentHandler (fun _ => .ok "QR") true (.ok "order_new")
        (.ok ("u", "l")) "key" 5000 ⟨[exRec], [], initialGate⟩ "DL01AB2345"
        50).2.1.code = 200 ∧
      (createPaymentHandler (fun _ => .ok "QR") true (.ok "order_new")
        (.ok ("u", "l")) "key" 5000 ⟨[exRec], [], initialGate⟩ "DL01AB2345"
        50).2.1.orderId = some exRec.razorpayOrderId ∧
      (createPaymentHandler (fun _ => .ok "QR") true (.ok "order_new")
        (.ok ("u", "l")) "key" 5000 ⟨[exRec], [], initialGate⟩ "DL01AB2345"
        50).2.1.paymentUrl = exRec.paymentUrl ∧
      (createPaymentHandler (fun _ => .ok "QR") true (.ok "order_new")
        (.ok ("u", "l")) "key" 5000 ⟨[exRec], [], initialGate⟩ "DL01AB2345"
        50).2.1.amount = some exRec.amount ∧
      ((createPaymentHandler (fun _ => .ok "QR") true (.ok "order_new")
          (.ok ("u", "l")) "key" 5000 ⟨[exRec], [], initialGate⟩ "DL01AB2345"
          50).2.1.qrCodeUrl = exRec.qrCodeUrl ∨
        ∃ q, (fun (_ : String) => (Except.ok "QR" : Except Unit String))
            (exRec.paymentUrl.getD "") = .ok q ∧
          (createPaymentHandler (fun _ => .ok "QR") true (.ok "order_new")
            (.ok ("u", "l")) "key" 5000 ⟨[exRec], [], initialGate⟩
            "DL01AB2345" 50).2.1.qrCodeUrl = some q)) :=
  ⟨by decide, by decide,
   create_returns_existing_pending (fun _ => .ok "QR") true (.ok "order_new")
     (.ok ("u", "l")) "key" 5000 ⟨[exRec], [], initialGate⟩ "DL01AB2345" 50
     exRec (by decide) (by decide)⟩

/-- C4 counterexample: a manual-verify call on a **completed** record
during a gateway outage answers 500 with no status field — not status
completed as the claim states — though it still leaves the record (and
the whole state) unchanged. -/
theorem manual_verify_gateway_error_on_completed :
    (manualVerifyHandler vGw 5000 ⟨[vRec], [], initialGate⟩
        "order_v").2.code = 500 ∧
    (manualVerifyHandler vGw 5000 ⟨[vRec], [], initialGate⟩
        "order_v").2.status = none ∧
    (manualVerifyHandler vGw 5000 ⟨[vRec], [], initialGate⟩ "order_v").1 =
      ⟨[vRec], [], initialGate⟩ := by
  refine ⟨rfl, rfl, rfl⟩

/-- The completion block acknowledges without mutating when the record is
already completed. -/
theorem verifyComplete_completed (st : SysState) (p : PaymentRecord)
    (pid : Option String) (now : Nat) (hc : p.status = .completed) :
    verifyComplete st p pid now =
      (st, { code := 200, success := some true, status := some "completed",
             message := "Payment already verified" }) := by
  simp [verifyComplete, hc]

/-- Method 2 of manual verification neither mutates a completed record
nor reports any status other than completed (its gateway-error answer
carries no status). -/
theorem verifyMethod2_completed (gw : Gateway) (now : Nat) (st : SysState)
    (p : PaymentRecord) (orderId : String) (hc : p.status = .completed) :
    (verifyMethod2 gw now st p orderId).1 = st ∧
    ((verifyMethod2 gw now st p orderId).2.code = 500 ∨
      (verifyMethod2 gw now st p orderId).2.status = some "completed") := by
  unfold verifyMethod2
  repeat' split
  all_goals
    simp [verifyComplete_completed _ _ _ _ hc, hc, PaymentStatus.toStr]

/-- C4 amended: a completed record is stable — get-status answers status
completed immediately and changes nothing; manual-verify changes nothing
(in particular paid-at is untouched and no second guest-ledger row
appears) and answers status completed **except** when a gateway order
fetch fails, in which case it answers an internal error (500) without a
status field. -/
theorem completed_record_stable (gw : Gateway) (now : Nat) (st : SysState)
    (orderId : String) (p : PaymentRecord)
    (hfind : findByOrderId st.db orderId = some p)
    (hc : p.status = .completed) :
    (getStatusHandler gw now st orderId).1 = st ∧
    (getStatusHandler gw now st orderId).2.status = some "completed" ∧
    (manualVerifyHandler gw now st orderId).1 = st ∧
    ((manualVerifyHandler gw now st orderId).2.code = 500 ∨
      (manualVerifyHandler gw now st orderId).2.status = some "completed") := by
  have hsc : (p.status == PaymentStatus.completed) = true := by simp [hc]
  refine ⟨?_, ?_, ?_, ?_⟩
  · simp [getStatusHandler, hfind, hsc]
  · simp [getStatusHandler, hfind, hsc]
  · simp only [manualVerifyHandler, hfind]
    repeat' split
    all_goals
      simp [verifyComplete_completed _ _ _ _ hc,
        (verifyMethod2_completed gw now st p orderId hc).1]
  · simp only [manualVerifyHandler, hfind]
    repeat' split
    all_goals
      simp [verifyComplete_completed _ _ _ _ hc,
        (verifyMethod2_completed gw now st p orderId hc).2]

/-- C4 amended witness: a completed record with a paid payment link, on a
healthy gateway. -/
theorem completed_record_stable_witness :
    (findByOrderId [vRec] "order_v" = some vRec) ∧ vRec.status = .completed ∧
    ((getStatusHandler vGw 5000 ⟨[vRec], [], initialGate⟩ "order_v").1 =
        ⟨[vRec], [], initialGate⟩ ∧
      (getStatusHandler vGw 5000 ⟨[vRec], [], initialGate⟩
          "order_v").2.status = some "completed" ∧
      (manualVerifyHandler vGw 5000 ⟨[vRec], [], initialGate⟩ "order_v").1 =
        ⟨[vRec], [], initialGate⟩ ∧
      ((manualVerifyHandler vGw 5000 ⟨[vRec], [], initialGate⟩
          "order_v").2.code = 500 ∨
        (manualVerifyHandler vGw 5000 ⟨[vRec], [], initialGate⟩
          "order_v").2.status = some "completed")) :=
  ⟨by decide, by decide,
   completed_record_stable vGw 5000 ⟨[vRec], [], initialGate⟩ "order_v" vRec
     (by decide) (by decide)⟩

/-- A record that is completed with a stamped paid-at time satisfies the
state-machine invariant. -/
theorem recordInv_of_completed (r : PaymentRecord) (t : Nat)
    (h1 : r.status = .completed) (h2 : r.paidAt = some t) : RecordInv r := by
  simp [RecordInv, h1, h2]

/-- The shared completion mutation always yields an invariant-satisfying
record. -/
theorem recordInv_markCompleted (p : PaymentRecord) (pid : Option String)
    (now : Nat) : RecordInv (markCompleted p pid now) := by
  simp [RecordInv, markCompleted]

/-- `findOne` returns a member of the collection. -/
theorem findByOrderId_mem {db : List PaymentRecord} {oid : String}
    {p : PaymentRecord} (h : findByOrderId db oid = some p) : p ∈ db :=
  List.mem_of_find?_eq_some h

/-- A guarded `findOne` (`if <id truthy> then findOne … else null`)
resolves to a member of the collection. -/
theorem ifFind_mem {α : Type} {db : List α} {cond : Bool} {f : α → Bool}
    {p : α} (h : (if cond = true then List.find? f db else none) = some p) :
    p ∈ db := by
  split at h
  · exact List.mem_of_find?_eq_some h
  · cases h

/-- The webhook's three-way lookup returns a member of the collection. -/
theorem webhookLookup_mem {db : List PaymentRecord} {a b c : Option String}
    {p : PaymentRecord} (h : webhookLookup db a b c = some p) : p ∈ db := by
  simp only [webhookLookup, findByOrderId] at h
  cases hA : (if jsTruthy a = true then
      List.find? (fun r => r.razorpayOrderId == a.getD "") db else none) with
  | some q =>
    rw [hA] at h
    injection h with h
    exact h ▸ ifFind_mem hA
  | none =>
    rw [hA] at h
    cases hC : (if jsTruthy c = true then
        List.find? (fun r => r.razorpayPaymentLinkId == c) db
        else none) with
    | some q =>
      rw [hC] at h
      injection h with h
      exact h ▸ ifFind_mem hC
    | none =>
      rw [hC] at h
      exact ifFind_mem h

/-- A request that leaves the `Payment` collection as it was is a good
step. -/
theorem goodStep_of_db_eq {st st' : SysState} (h : st'.db = st.db)
    (hInv : ∀ r ∈ st.db, RecordInv r) : GoodStep st st' := by
  constructor
  · rw [h]; exact hInv
  · intro r hr _; rw [h]; exact hr

/-- Committing the completion of a not-yet-completed member record is a
good step: every record of the result satisfies the invariant, and every
completed record is untouched (order ids are unique). -/
theorem goodStep_applyCompletion (st : SysState) (p p' : PaymentRecord)
    (now : Nat) (hmem : p ∈ st.db) (hpend : p.status ≠ .completed)
    (hid : p'.razorpayOrderId = p.razorpayOrderId) (hp' : RecordInv p')
    (hU : (st.db.map (·.razorpayOrderId)).Nodup)
    (hInv : ∀ r ∈ st.db, RecordInv r) :
    GoodStep st (applyCompletion st p' now) := by
  constructor
  · intro r' hr'
    simp only [applyCompletion, saveDoc] at hr'
    rcases List.mem_map.mp hr' with ⟨r, hr, hfr⟩
    by_cases hcond : (r.razorpayOrderId == p'.razorpayOrderId) = true
    · rw [hcond] at hfr; simp at hfr; exact hfr ▸ hp'
    · rw [Bool.not_eq_true] at hcond
      rw [hcond] at hfr; simp at hfr; exact hfr ▸ hInv r hr
  · intro r hr hcomp
    have hne : ¬ (r.razorpayOrderId = p'.razorpayOrderId) := by
      rw [hid]
      intro he
      have heq : r = p := List.inj_on_of_nodup_map hU hr hmem he
      exact hpend (heq ▸ hcomp)
    show r ∈ (applyCompletion st p' now).db
    simp only [applyCompletion, saveDoc]
    have hfr : (fun q => if q.razorpayOrderId == p'.razorpayOrderId
        then p' else q) r = r := by simp [hne]
    exact hfr ▸ List.mem_map_of_mem _ hr

/-- Appending a fresh invariant-satisfying record is a good step. -/
theorem goodStep_append (st : SysState) (record : PaymentRecord)
    (hrec : RecordInv record) (hInv : ∀ r ∈ st.db, RecordInv r) :
    GoodStep st { st with db := st.db ++ [record] } := by
  constructor
  · intro r' hr'
    simp only [List.mem_append, List.mem_singleton] at hr'
    rcases hr' with hr' | hr'
    · exact hInv r' hr'
    · exact hr' ▸ hrec
  · intro r hr _
    exact List.mem_append_left _ hr

/-- The status handler is a good step. -/
theorem goodStep_getStatus (gw : Gateway) (now : Nat) (st : SysState)
    (oid : String) (hU : (st.db.map (·.razorpayOrderId)).Nodup)
    (hInv : ∀ r ∈ st.db, RecordInv r) :
    GoodStep st (getStatusHandler gw now st oid).1 := by
  cases hfind : findByOrderId st.db oid with
  | none =>
    simp only [getStatusHandler, hfind]
    exact goodStep_of_db_eq rfl hInv
  | some payment =>
    by_cases hstat : (payment.status == PaymentStatus.completed) = true
    · simp only [getStatusHandler, hfind, hstat, if_true]
      exact goodStep_of_db_eq rfl hInv
    · have hpend : payment.status ≠ .completed := by
        intro he; exact hstat (by simp [he])
      have hmem := findByOrderId_mem hfind
      simp only [getStatusHandler, hfind, hstat, if_false,
        Bool.false_eq_true]
      unfold statusMethod2 statusMethod3 statusMethod4 statusFallback
      repeat' split
      all_goals
        first
        | exact goodStep_of_db_eq rfl hInv
        | exact goodStep_applyCompletion st payment _ now hmem hpend rfl
            (recordInv_markCompleted _ _ _) hU hInv

/-- The webhook handler is a good step. -/
theorem goodStep_webhook (hmac : String → String → String) (secret : String)
    (sig : Option String) (bodyStr : String) (event : WebhookEvent)
    (now : Nat) (st : SysState)
    (hU : (st.db.map (·.razorpayOrderId)).Nodup)
    (hInv : ∀ r ∈ st.db, RecordInv r) :
    GoodStep st (webhookHandler hmac secret sig bodyStr event now st).1 := by
  simp only [webhookHandler, webhookProcess]
  repeat' split
  all_goals try exact goodStep_of_db_eq rfl hInv
  all_goals
    rename_i payment heq hguard h1 h2
    exact goodStep_applyCompletion st payment _ now (webhookLookup_mem heq)
      (by simpa [bne_iff_ne] using hguard) rfl
      (recordInv_of_completed _ now rfl rfl) hU hInv

/-- The manual-verify handler is a good step. -/
theorem goodStep_verify (gw : Gateway) (now : Nat) (st : SysState)
    (oid : String) (hU : (st.db.map (·.razorpayOrderId)).Nodup)
    (hInv : ∀ r ∈ st.db, RecordInv r) :
    GoodStep st (manualVerifyHandler gw now st oid).1 := by
  cases hfind : findByOrderId st.db oid with
  | none =>
    simp only [manualVerifyHandler, hfind]
    exact goodStep_of_db_eq rfl hInv
  | some payment =>
    have hmem := findByOrderId_mem hfind
    simp only [manualVerifyHandler, hfind]
    unfold verifyMethod2 verifyComplete
    repeat' split
    all_goals try exact goodStep_of_db_eq rfl hInv
    all_goals
      rename_i hguard
      exact goodStep_applyCompletion st payment _ now hmem
        (by simpa [bne_iff_ne] using hguard) rfl
        (recordInv_markCompleted _ _ _) hU hInv

/-- The create handler is a good step. -/
theorem goodStep_create (qrGen : String → Except Unit String) (keyOk : Bool)
    (orderRes : Except Unit String) (linkRes : Except Unit (String × String))
    (keyId : String) (plate : String) (amount : Nat) (now : Nat)
    (st : SysState) (_hU : (st.db.map (·.razorpayOrderId)).Nodup)
    (hInv : ∀ r ∈ st.db, RecordInv r) :
    GoodStep st
      (createPaymentHandler qrGen keyOk orderRes linkRes keyId now st plate
        amount).1 := by
  simp only [createPaymentHandler]
  repeat' split
  all_goals try exact goodStep_of_db_eq rfl hInv
  all_goals exact goodStep_append st _ (by simp [RecordInv]) hInv

/-- C9: the `PaymentRecord` state machine — every operation (create,
get-status, webhook, manual-verify), run on a store of
invariant-satisfying records with unique order ids, (a) keeps every
record's invariant: the status is never `failed` and paid-at is non-null
iff the status is completed — so a status can only move from pending to
completed — and (b) leaves every completed record exactly as it was
(completed is terminal). -/
theorem payment_state_machine (now : Nat) (st : SysState) (op : Op)
    (hU : (st.db.map (·.razorpayOrderId)).Nodup)
    (hInv : ∀ r ∈ st.db, RecordInv r) :
    (∀ r' ∈ (applyOp now st op).db, RecordInv r') ∧
    (∀ r ∈ st.db, r.status = .completed → r ∈ (applyOp now st op).db) := by
  cases op with
  | create q k o l kid p a => exact goodStep_create q k o l kid p a now st hU hInv
  | status gw oid => exact goodStep_getStatus gw now st oid hU hInv
  | webhook h s sig b ev => exact goodStep_webhook h s sig b ev now st hU hInv
  | verify gw oid => exact goodStep_verify gw now st oid hU hInv

/-- C9 witness: a webhook completing a pending record in a two-record
store. -/
theorem payment_state_machine_witness :
    (([p9a, p9b].map (·.razorpayOrderId)).Nodup) ∧
    (∀ r ∈ [p9a, p9b], RecordInv r) ∧
    ((∀ r' ∈ (applyOp 40 ⟨[p9a, p9b], [], initialGate⟩ op9).db,
        RecordInv r') ∧
      (∀ r ∈ [p9a, p9b], r.status = .completed →
        r ∈ (applyOp 40 ⟨[p9a, p9b], [], initialGate⟩ op9).db)) :=
  ⟨by decide, by decide,
   payment_state_machine 40 ⟨[p9a, p9b], [], initialGate⟩ op9 (by decide)
     (by decide)⟩
